import Mathlib

set_option autoImplicit false

/-!
Verification of the bulk-import pipeline of the SCIM user provisioning
service, shallowly embedded from src/python/src/bulk_import_service.py.

The embedding models the service at the level the orchestrator sees it:

* the uploaded file is modelled after Python's csv.DictReader output: a
  declared filename and size, the header field names, and one association
  list (column name to raw cell string) per data line;
* the SQLAlchemy record store (database_service.py) is an external
  collaborator; it is modelled as the set of userNames already present in
  the target realm, an oracle of userNames whose creation raises (store
  level failures such as the uniqueness backstop), and a log of performed
  creations;
* wall-clock fields (processing_time_seconds) are omitted: they carry no
  logical content.
-/

namespace BulkImport

/-- A cleaned cell value: every column keeps its trimmed string except the
active column, which parse_csv_content converts to a boolean. -/
inductive CellValue where
  | str (s : String)
  | bool (b : Bool)
deriving DecidableEq, Repr

/-- One data line as produced by csv.DictReader: column name to raw cell
string; an absent key models both a missing column and a None cell. -/
abbrev RawCSVRow := List (String × String)

/-- A row surviving parse_csv_content: cleaned fields plus the source row
number that the Python code stores under the key _row_number. -/
structure ParsedRow where
  rowNumber : Nat
  fields : List (String × CellValue)
deriving DecidableEq, Repr

/-- Python str.strip default whitespace set (ASCII). -/
def isPySpace (c : Char) : Bool :=
  c == ' ' || c == '\t' || c == '\n' || c == '\r' || c == '\x0b' || c == '\x0c'

/-- Models Python str.strip: drop leading and trailing whitespace. -/
def pyStrip (s : String) : String :=
  String.mk (((s.data.dropWhile isPySpace).reverse.dropWhile isPySpace).reverse)

/-- ASCII lowering of one character. -/
def lowerChar (c : Char) : Char :=
  if 65 ≤ c.toNat ∧ c.toNat ≤ 90 then Char.ofNat (c.toNat + 32) else c

/-- Models Python str.lower (ASCII fragment, enough for this pipeline). -/
def pyLower (s : String) : String := String.mk (s.data.map lowerChar)

/-- Models Python str.endswith. -/
def pyEndsWith (s suffix : String) : Bool := List.isSuffixOf suffix.data s.data

/-- Models Python str.split on a one-character separator. -/
def pySplitChar : List Char → Char → List (List Char)
  | [], _ => [[]]
  | c :: rest, sep =>
    if c == sep then [] :: pySplitChar rest sep
    else
      match pySplitChar rest sep with
      | [] => [[c]]
      | g :: gs => (c :: g) :: gs

/-- BulkImportService.REQUIRED_COLUMNS. -/
def REQUIRED_COLUMNS : List String := ["userName", "firstName", "surName", "email"]

/-- BulkImportService.OPTIONAL_COLUMNS. -/
def OPTIONAL_COLUMNS : List String := ["displayName", "secondaryEmail", "externalId", "active"]

/-- BulkImportService.ALL_COLUMNS. -/
def ALL_COLUMNS : List String := REQUIRED_COLUMNS ++ OPTIONAL_COLUMNS

/-- BulkImportService.MAX_FILE_SIZE (5 MiB). -/
def MAX_FILE_SIZE : Nat := 5 * 1024 * 1024

/-- BulkImportService.MAX_USERS_PER_IMPORT. -/
def MAX_USERS_PER_IMPORT : Nat := 1000

/-- The uploaded file, at the level the service reads it. -/
structure UploadFile where
  filename : String
  size : Option Nat
  fieldnames : List String
  dataRows : List RawCSVRow
deriving DecidableEq, Repr

/-- Python truthiness test plus the size comparison of validate_csv_file:
the source guards the limit with if file.size and file.size > MAX_FILE_SIZE,
so an absent (None) or zero declared size never triggers the size error. -/
def declaredSizeExceeds (size : Option Nat) : Bool :=
  match size with
  | none => false
  | some n => if n == 0 then false else decide (n > MAX_FILE_SIZE)

/-- BulkImportService.validate_csv_file: returns (is_valid, error_messages). -/
def validate_csv_file (file : UploadFile) : Bool × List String :=
  let extErrors :=
    if pyEndsWith (pyLower file.filename) ".csv" then []
    else ["File must be a CSV file with .csv extension"]
  let sizeErrors :=
    if declaredSizeExceeds file.size then
      ["File size " ++ toString (file.size.getD 0) ++
        " bytes exceeds maximum allowed size of " ++ toString MAX_FILE_SIZE ++ " bytes"]
    else []
  let errors := extErrors ++ sizeErrors
  (errors.length == 0, errors)

/-- The boolean conversion applied to the active column inside
parse_csv_content (value is already stripped there). -/
def parseActiveValue (value : String) : Bool :=
  if ["true", "1", "yes", "active"].contains (pyLower value) then true
  else if ["false", "0", "no", "inactive"].contains (pyLower value) then false
  else true

/-- The per-row cleaning loop of parse_csv_content: for each known column
present and non-None, strip the value, drop it when empty, and convert the
active column to a boolean. -/
def cleanRow (row : RawCSVRow) : List (String × CellValue) :=
  ALL_COLUMNS.filterMap (fun col =>
    match row.lookup col with
    | none => none
    | some raw =>
      let value := pyStrip raw
      if value = "" then none
      else if col = "active" then some (col, CellValue.bool (parseActiveValue value))
      else some (col, CellValue.str value))

/-- The truncation notice appended when the row cap is hit. -/
def maxUsersMsg (maxRows : Nat) : String :=
  "Maximum number of users (" ++ toString maxRows ++ ") exceeded"

/-- The row loop of parse_csv_content. rowNum starts at 2 (row 1 is the
header line); count is len(rows) accumulated so far, checked against the
cap at the top of every iteration; a row whose cleaned fields are empty
(a completely blank line) is dropped silently. -/
def parseRowsAux (maxRows : Nat) : List RawCSVRow → Nat → Nat → List ParsedRow × List String
  | [], _, _ => ([], [])
  | raw :: rest, rowNum, count =>
    if maxRows ≤ count then
      ([], [maxUsersMsg maxRows])
    else
      let cleaned := cleanRow raw
      if cleaned.isEmpty then
        parseRowsAux maxRows rest (rowNum + 1) count
      else
        ((⟨rowNum, cleaned⟩ : ParsedRow) :: (parseRowsAux maxRows rest (rowNum + 1) (count + 1)).1,
          (parseRowsAux maxRows rest (rowNum + 1) (count + 1)).2)

/-- The stripped non-empty header names, as computed by parse_csv_content. -/
def headersOf (file : UploadFile) : List String :=
  (file.fieldnames.filter (fun h => h != "")).map pyStrip

/-- BulkImportService.parse_csv_content: header validation followed by the
row loop; returns (parsed_rows, validation_errors). Byte decoding and csv
quoting live in Python's csv module and are below this model. -/
def parse_csv_content (file : UploadFile) : List ParsedRow × List String :=
  if file.fieldnames.isEmpty then
    ([], ["CSV file appears to be empty or malformed"])
  else
    let missing_required := REQUIRED_COLUMNS.filter (fun c => !(headersOf file).contains c)
    if !missing_required.isEmpty then
      ([], ["Missing required columns: " ++ String.intercalate ", " missing_required])
    else
      let pair := parseRowsAux MAX_USERS_PER_IMPORT file.dataRows 2 0
      if pair.1.isEmpty then
        (pair.1, pair.2 ++ ["No valid user data found in CSV file"])
      else
        (pair.1, pair.2)

/-- The external record store (database_service.py) restricted to the
target realm: existing is the set of userNames stored in the realm,
failing is the oracle of userNames whose creation raises, created logs the
creations performed by this import. -/
structure Store where
  existing : List String
  failing : List String
  created : List String
deriving DecidableEq, Repr

/-- DatabaseService.get_scim_user_by_username restricted to the target
realm: does a record with this userName exist. -/
def get_scim_user_by_username (db : Store) (username : String) : Bool :=
  db.existing.contains username

/-- schemas.EmailSchema. -/
structure EmailSchema where
  value : String
  primary : Bool
deriving DecidableEq, Repr

/-- schemas.SCIMUserCreate, the fields used by the import pipeline. -/
structure SCIMUserCreate where
  userName : String
  firstName : String
  surName : String
  displayName : Option String
  emails : List EmailSchema
  externalId : Option String
  active : Bool
deriving DecidableEq, Repr

/-- schemas.CSVUserRow, the validated row. -/
structure CSVUserRow where
  userName : String
  firstName : String
  surName : String
  displayName : Option String
  email : String
  secondaryEmail : Option String
  externalId : Option String
  active : Bool
deriving DecidableEq, Repr

/-- Models pydantic's EmailStr validator (external library): one at-sign
separating a non-empty local part from a non-empty domain that contains a
dot. The claims under proof do not depend on finer email syntax. -/
def isValidEmail (s : String) : Bool :=
  match pySplitChar s.data '@' with
  | [localPart, domain] => (!localPart.isEmpty) && (!domain.isEmpty) && domain.contains '.'
  | _ => false

/-- String field read from cleaned fields. -/
def getStr (fields : List (String × CellValue)) (col : String) : Option String :=
  match fields.lookup col with
  | some (CellValue.str s) => some s
  | _ => none

/-- Boolean field read from cleaned fields (only the active column). -/
def getBoolField (fields : List (String × CellValue)) (col : String) : Option Bool :=
  match fields.lookup col with
  | some (CellValue.bool b) => some b
  | _ => none

/-- Error message shape Row N: field - message used by validate_user_row. -/
def rowErr (rowNumber : Nat) (field msg : String) : String :=
  "Row " ++ toString rowNumber ++ ": " ++ field ++ " - " ++ msg

/-- The displayName pydantic validator of CSVUserRow: derive
firstName surName when the given value is falsy and both names validated. -/
def deriveDisplayName (v : Option String) (firstName surName : Option String) : Option String :=
  if (match v with | none => true | some s => s = "") then
    match firstName, surName with
    | some f, some s => some (f ++ " " ++ s)
    | _, _ => v
  else v

/-- BulkImportService.validate_user_row: pydantic validation of one row,
collecting one message per invalid field; returns
(validated_user_or_none, validation_errors). The _row_number key is kept
outside fields by the ParsedRow structure. -/
def validate_user_row (fields : List (String × CellValue)) (rowNumber : Nat) :
    Option CSVUserRow × List String :=
  let userName := getStr fields "userName"
  let firstName := getStr fields "firstName"
  let surName := getStr fields "surName"
  let displayName := getStr fields "displayName"
  let email := getStr fields "email"
  let secondaryEmail := getStr fields "secondaryEmail"
  let extId := getStr fields "externalId"
  let active := getBoolField fields "active"
  let errors :=
    (if userName.isNone then [rowErr rowNumber "userName" "field required"] else []) ++
    (if firstName.isNone then [rowErr rowNumber "firstName" "field required"] else []) ++
    (if surName.isNone then [rowErr rowNumber "surName" "field required"] else []) ++
    (match email with
      | none => [rowErr rowNumber "email" "field required"]
      | some e =>
        if isValidEmail e then [] else [rowErr rowNumber "email" "value is not a valid email address"]) ++
    (match secondaryEmail with
      | none => []
      | some e =>
        if isValidEmail e then [] else [rowErr rowNumber "secondaryEmail" "value is not a valid email address"])
  match userName, firstName, surName, email with
  | some un, some fn, some sn, some em =>
    if errors.isEmpty then
      (some { userName := un, firstName := fn, surName := sn,
              displayName := deriveDisplayName displayName (some fn) (some sn),
              email := em, secondaryEmail := secondaryEmail,
              externalId := extId, active := active.getD true }, [])
    else (none, errors)
  | _, _, _, _ => (none, errors)

/-- BulkImportService.csv_user_to_scim_user. -/
def csv_user_to_scim_user (csv_user : CSVUserRow) : SCIMUserCreate :=
  { userName := csv_user.userName, firstName := csv_user.firstName,
    surName := csv_user.surName, displayName := csv_user.displayName,
    emails := [EmailSchema.mk csv_user.email true] ++
      (match csv_user.secondaryEmail with
        | some s => if s = "" then [] else [EmailSchema.mk s false]
        | none => []),
    externalId := csv_user.externalId, active := csv_user.active }

/-- The user id the store assigns (generate_unique_id in the source is an
opaque fresh id; modelled as a function of the userName). -/
def generated_user_id (username : String) : String := "id-" ++ username

/-- DatabaseService.create_scim_user as seen from the orchestrator: either
raises (modelled by the failing oracle) or commits the record to the realm
and returns the created user id. -/
def create_scim_user (db : Store) (user : SCIMUserCreate) : Except String (String × Store) :=
  if db.failing.contains user.userName then
    Except.error ("store rejected userName " ++ user.userName)
  else
    Except.ok (generated_user_id user.userName,
      { db with existing := db.existing ++ [user.userName],
                created := db.created ++ [user.userName] })

/-- schemas.BulkImportStatus. -/
inductive BulkImportStatus where
  | success
  | partialSuccess
  | failed
deriving DecidableEq, Repr

/-- schemas.BulkUserResult. -/
structure BulkUserResult where
  row_number : Nat
  userName : String
  status : String
  user_id : Option String
  message : String
  errors : Option (List String)
deriving DecidableEq, Repr

/-- schemas.BulkImportRequest. -/
structure BulkImportRequest where
  dry_run : Bool
  skip_duplicates : Bool
  continue_on_error : Bool
deriving DecidableEq, Repr

/-- schemas.BulkImportResponse (processing_time_seconds omitted). -/
structure BulkImportResponse where
  status : BulkImportStatus
  total_rows : Nat
  successful_imports : Nat
  failed_imports : Nat
  skipped_imports : Nat
  results : List BulkUserResult
  errors : Option (List String)
  csv_validation_errors : Option (List String)
deriving DecidableEq, Repr

/-- The three counters threaded through the row loop. -/
structure RunTotals where
  successful_count : Nat
  failed_count : Nat
  skipped_count : Nat
deriving DecidableEq, Repr

/-- Counters start at zero. -/
def initTotals : RunTotals := ⟨0, 0, 0⟩

/-- The outcome appended on a row validation failure. -/
def validationFailedResult (row : ParsedRow) (verrors : List String) : BulkUserResult :=
  { row_number := row.rowNumber,
    userName := (match getStr row.fields "userName" with | some s => s | none => "Unknown"),
    status := "error", user_id := none, message := "Validation failed", errors := some verrors }

/-- The outcome appended when validation returns neither user nor errors. -/
def unableToValidateResult (row : ParsedRow) : BulkUserResult :=
  { row_number := row.rowNumber,
    userName := (match getStr row.fields "userName" with | some s => s | none => "Unknown"),
    status := "error", user_id := none, message := "Unable to validate user data", errors := none }

/-- The outcome appended when a duplicate is skipped. -/
def skippedResult (row : ParsedRow) (u : CSVUserRow) : BulkUserResult :=
  { row_number := row.rowNumber, userName := u.userName, status := "skipped",
    user_id := none, message := "User " ++ u.userName ++ " already exists in realm",
    errors := none }

/-- The outcome appended for a valid row under dry_run. -/
def dryRunSuccessResult (row : ParsedRow) (u : CSVUserRow) : BulkUserResult :=
  { row_number := row.rowNumber, userName := u.userName, status := "success",
    user_id := none, message := "Validation successful (dry run)", errors := none }

/-- The outcome appended after a successful store creation. -/
def createdResult (row : ParsedRow) (u : CSVUserRow) (uid : String) : BulkUserResult :=
  { row_number := row.rowNumber, userName := u.userName, status := "success",
    user_id := some uid, message := "User " ++ u.userName ++ " created successfully",
    errors := none }

/-- The outcome appended when the store creation raises. -/
def createFailedResult (row : ParsedRow) (u : CSVUserRow) (msg : String) : BulkUserResult :=
  { row_number := row.rowNumber, userName := u.userName, status := "error",
    user_id := none, message := "Failed to create user: " ++ msg, errors := none }

/-- Which counter the loop body increments in a given branch. -/
inductive CounterKind where
  | succ
  | fail
  | skip
deriving DecidableEq, Repr

/-- Apply one counter increment. -/
def applyCounter (t : RunTotals) : CounterKind → RunTotals
  | CounterKind.succ => { t with successful_count := t.successful_count + 1 }
  | CounterKind.fail => { t with failed_count := t.failed_count + 1 }
  | CounterKind.skip => { t with skipped_count := t.skipped_count + 1 }

/-- What one iteration of the row loop of process_bulk_import does to one
row: the outcome appended to results, the counter incremented, the store
after the iteration, and whether the loop breaks (continue_on_error
handling). -/
structure StepResult where
  outcome : BulkUserResult
  counter : CounterKind
  db : Store
  stop : Bool
deriving DecidableEq, Repr

/-- One iteration of the row loop of process_bulk_import: validate the row,
check for duplicates when skip_duplicates is set, then dry-run-classify or
create through the store; on a validation or creation failure the loop
breaks when continue_on_error is false. -/
def processStep (params : BulkImportRequest) (db : Store) (row : ParsedRow) : StepResult :=
  if (validate_user_row row.fields row.rowNumber).2.isEmpty then
    match (validate_user_row row.fields row.rowNumber).1 with
    | none =>
      { outcome := unableToValidateResult row, counter := CounterKind.fail, db := db, stop := false }
    | some validated_user =>
      if params.skip_duplicates && get_scim_user_by_username db validated_user.userName then
        { outcome := skippedResult row validated_user, counter := CounterKind.skip, db := db, stop := false }
      else if params.dry_run then
        { outcome := dryRunSuccessResult row validated_user, counter := CounterKind.succ, db := db, stop := false }
      else
        match create_scim_user db (csv_user_to_scim_user validated_user) with
        | Except.ok created =>
          { outcome := createdResult row validated_user created.1, counter := CounterKind.succ,
            db := created.2, stop := false }
        | Except.error msg =>
          { outcome := createFailedResult row validated_user msg, counter := CounterKind.fail,
            db := db, stop := !params.continue_on_error }
  else
    { outcome := validationFailedResult row (validate_user_row row.fields row.rowNumber).2,
      counter := CounterKind.fail, db := db, stop := !params.continue_on_error }

/-- The row loop of process_bulk_import: visits rows in source order,
appends one outcome per visited row, updates the counters and the store,
and terminates early when a step signals stop. -/
def processRows (params : BulkImportRequest) :
    List ParsedRow → RunTotals → Store → List BulkUserResult × RunTotals × Store
  | [], t, db => ([], t, db)
  | row :: rest, t, db =>
    let s := processStep params db row
    if s.stop then ([s.outcome], applyCounter t s.counter, s.db)
    else
      (s.outcome :: (processRows params rest (applyCounter t s.counter) s.db).1,
        (processRows params rest (applyCounter t s.counter) s.db).2)

/-- The early FAILED response for file-level and parse-level rejection. -/
def failedResponse (errs : List String) : BulkImportResponse :=
  { status := BulkImportStatus.failed, total_rows := 0, successful_imports := 0,
    failed_imports := 0, skipped_imports := 0, results := [],
    errors := some errs, csv_validation_errors := some errs }

/-- BulkImportService.process_bulk_import: file validation, parsing, the
row loop, and aggregate status derivation. Returns the report and the
store after the import. general_errors is never appended to in the source,
so the errors field of the normal return is None. -/
def process_bulk_import (file : UploadFile) (db : Store) (params : BulkImportRequest) :
    BulkImportResponse × Store :=
  if !(validate_csv_file file).1 then
    (failedResponse (validate_csv_file file).2, db)
  else
    let rows := (parse_csv_content file).1
    let csv_errors := (parse_csv_content file).2
    if !csv_errors.isEmpty && rows.isEmpty then
      (failedResponse csv_errors, db)
    else
      let run := processRows params rows initTotals db
      let status :=
        if run.2.1.failed_count == 0 && csv_errors.length == 0 then BulkImportStatus.success
        else if run.2.1.successful_count > 0 then BulkImportStatus.partialSuccess
        else BulkImportStatus.failed
      ({ status := status, total_rows := rows.length,
         successful_imports := run.2.1.successful_count,
         failed_imports := run.2.1.failed_count,
         skipped_imports := run.2.1.skipped_count,
         results := run.1,
         errors := none,
         csv_validation_errors := if csv_errors.isEmpty then none else some csv_errors },
        run.2.2)

/-- Number of data lines that clean to a non-empty field set (the lines
that consume a row slot in the parser). -/
def countNonblank (raws : List RawCSVRow) : Nat :=
  raws.countP (fun r => !(cleanRow r).isEmpty)

/-- Reference sequence for stating the truncation property: the parser's
row loop with no row cap. -/
def parseRowsNoLimit : List RawCSVRow → Nat → List ParsedRow
  | [], _ => []
  | raw :: rest, rowNum =>
    if (cleanRow raw).isEmpty then parseRowsNoLimit rest (rowNum + 1)
    else (⟨rowNum, cleanRow raw⟩ : ParsedRow) :: parseRowsNoLimit rest (rowNum + 1)

/-- The status string carried by the outcome built in the branch that
increments a given counter. -/
def statusOfCounter : CounterKind → String
  | CounterKind.succ => "success"
  | CounterKind.fail => "error"
  | CounterKind.skip => "skipped"

/-- Occurrences of a given status string among results. -/
def countStatus (rs : List BulkUserResult) (s : String) : Nat :=
  rs.countP (fun r => r.status == s)

theorem validate_user_row_some_of_no_errors (fields : List (String × CellValue)) (n : Nat)
    (h : (validate_user_row fields n).2.isEmpty = true) :
    (validate_user_row fields n).1.isSome = true := by
  rcases hv : validate_user_row fields n with ⟨a, b⟩
  have hB : b.isEmpty = true := by rw [hv] at h; exact h
  show (a, b).1.isSome = true
  unfold validate_user_row at hv
  cases hu : getStr fields "userName" <;>
    cases hf : getStr fields "firstName" <;>
      cases hs : getStr fields "surName" <;>
        cases he : getStr fields "email" <;>
          simp [hu, hf, hs, he] at hv
  all_goals try
    (obtain ⟨ha, hb⟩ := hv
     subst hb
     simp at hB)
  split at hv
  · rw [Prod.mk.injEq] at hv
    obtain ⟨ha, hb⟩ := hv
    rw [← ha]
    rfl
  · next hcond =>
    rw [Prod.mk.injEq] at hv
    obtain ⟨ha, hb⟩ := hv
    rw [← hb] at hB
    rw [List.isEmpty_eq_true, List.append_eq_nil] at hB
    obtain ⟨hB1, hB2⟩ := hB
    split at hB1
    · next hP => exact absurd ⟨hP, hB2⟩ hcond
    · simp at hB1

theorem processStep_row_number (params : BulkImportRequest) (db : Store) (row : ParsedRow) :
    (processStep params db row).outcome.row_number = row.rowNumber := by
  unfold processStep
  split
  · split
    · rfl
    · split
      · rfl
      · split
        · rfl
        · split
          · rfl
          · rfl
  · rfl

theorem processStep_status_eq (params : BulkImportRequest) (db : Store) (row : ParsedRow) :
    (processStep params db row).outcome.status = statusOfCounter (processStep params db row).counter := by
  unfold processStep
  split
  · split
    · rfl
    · split
      · rfl
      · split
        · rfl
        · split
          · rfl
          · rfl
  · rfl

theorem processStep_stop_of_error (params : BulkImportRequest) (db : Store) (row : ParsedRow) :
    (processStep params db row).outcome.status = "error" →
    (processStep params db row).stop = !params.continue_on_error := by
  unfold processStep
  split
  · next hempty =>
    split
    · next hnone =>
      have h2 := validate_user_row_some_of_no_errors row.fields row.rowNumber hempty
      rw [hnone] at h2
      simp at h2
    · next u hsome =>
      split
      · intro hcontra
        simp [skippedResult] at hcontra
      · split
        · intro hcontra
          simp [dryRunSuccessResult] at hcontra
        · split
          · intro hcontra
            simp [createdResult] at hcontra
          · intro _
            rfl
  · intro _
    rfl

theorem processStep_not_stop (params : BulkImportRequest) (db : Store) (row : ParsedRow)
    (hcoe : params.continue_on_error = true) :
    (processStep params db row).stop = false := by
  unfold processStep
  split
  · split
    · rfl
    · split
      · rfl
      · split
        · rfl
        · split
          · rfl
          · simp [hcoe]
  · simp [hcoe]

theorem processStep_db_dry (params : BulkImportRequest) (db : Store) (row : ParsedRow)
    (hdry : params.dry_run = true) :
    (processStep params db row).db = db := by
  unfold processStep
  simp only [hdry, if_true]
  split
  · split
    · rfl
    · split
      · rfl
      · rfl
  · rfl

theorem processRows_cons (params : BulkImportRequest) (row : ParsedRow) (rest : List ParsedRow)
    (t : RunTotals) (db : Store) :
    processRows params (row :: rest) t db =
      if (processStep params db row).stop then
        ([(processStep params db row).outcome],
          applyCounter t (processStep params db row).counter, (processStep params db row).db)
      else
        ((processStep params db row).outcome ::
            (processRows params rest (applyCounter t (processStep params db row).counter)
              (processStep params db row).db).1,
          (processRows params rest (applyCounter t (processStep params db row).counter)
            (processStep params db row).db).2) := rfl

theorem processRows_counts (params : BulkImportRequest) (rows : List ParsedRow) :
    ∀ (t : RunTotals) (db : Store),
      (processRows params rows t db).2.1.successful_count
          = t.successful_count + countStatus (processRows params rows t db).1 "success" ∧
      (processRows params rows t db).2.1.failed_count
          = t.failed_count + countStatus (processRows params rows t db).1 "error" ∧
      (processRows params rows t db).2.1.skipped_count
          = t.skipped_count + countStatus (processRows params rows t db).1 "skipped" := by
  induction rows with
  | nil =>
    intro t db
    simp [processRows, countStatus]
  | cons row rest ih =>
    intro t db
    rw [processRows_cons]
    have hst := processStep_status_eq params db row
    obtain ⟨ih1, ih2, ih3⟩ :=
      ih (applyCounter t (processStep params db row).counter) (processStep params db row).db
    by_cases hstop : (processStep params db row).stop = true
    · rw [if_pos hstop]
      cases hc : (processStep params db row).counter <;> rw [hc] at hst <;>
        simp [countStatus, applyCounter, hst, hc, statusOfCounter]
    · rw [if_neg hstop]
      cases hc : (processStep params db row).counter <;> rw [hc] at hst ih1 ih2 ih3 <;>
        simp [countStatus, applyCounter, hst, statusOfCounter, List.countP_cons] at ih1 ih2 ih3 ⊢ <;>
        omega

theorem processRows_sum_length (params : BulkImportRequest) (rows : List ParsedRow) :
    ∀ (t : RunTotals) (db : Store),
      (processRows params rows t db).2.1.successful_count
          + (processRows params rows t db).2.1.failed_count
          + (processRows params rows t db).2.1.skipped_count
        = t.successful_count + t.failed_count + t.skipped_count
          + (processRows params rows t db).1.length := by
  induction rows with
  | nil =>
    intro t db
    simp [processRows]
  | cons row rest ih =>
    intro t db
    rw [processRows_cons]
    have ih0 := ih (applyCounter t (processStep params db row).counter) (processStep params db row).db
    by_cases hstop : (processStep params db row).stop = true
    · rw [if_pos hstop]
      cases hc : (processStep params db row).counter <;> simp [applyCounter] <;> omega
    · rw [if_neg hstop]
      cases hc : (processStep params db row).counter <;> rw [hc] at ih0 <;>
        simp [applyCounter] at ih0 ⊢ <;> omega

theorem processRows_map_row_number (params : BulkImportRequest) (rows : List ParsedRow) :
    ∀ (t : RunTotals) (db : Store),
      ∃ k, (processRows params rows t db).1.map BulkUserResult.row_number
        = (rows.map ParsedRow.rowNumber).take k := by
  induction rows with
  | nil =>
    intro t db
    exact ⟨0, by simp [processRows]⟩
  | cons row rest ih =>
    intro t db
    rw [processRows_cons]
    by_cases hstop : (processStep params db row).stop = true
    · rw [if_pos hstop]
      exact ⟨1, by simp [processStep_row_number]⟩
    · rw [if_neg hstop]
      obtain ⟨k, hk⟩ :=
        ih (applyCounter t (processStep params db row).counter) (processStep params db row).db
      exact ⟨k + 1, by simp [hk, processStep_row_number]⟩

theorem processRows_length_total (params : BulkImportRequest)
    (hcoe : params.continue_on_error = true) (rows : List ParsedRow) :
    ∀ (t : RunTotals) (db : Store),
      (processRows params rows t db).1.length = rows.length := by
  induction rows with
  | nil =>
    intro t db
    simp [processRows]
  | cons row rest ih =>
    intro t db
    rw [processRows_cons, if_neg]
    · simp [ih]
    · rw [processStep_not_stop params db row hcoe]
      simp

theorem processRows_error_last (params : BulkImportRequest)
    (hcoe : params.continue_on_error = false) (rows : List ParsedRow) :
    ∀ (t : RunTotals) (db : Store),
      ∀ x ∈ (processRows params rows t db).1.dropLast, x.status ≠ "error" := by
  induction rows with
  | nil =>
    intro t db x hx
    simp [processRows] at hx
  | cons row rest ih =>
    intro t db x hx
    rw [processRows_cons] at hx
    by_cases hstop : (processStep params db row).stop = true
    · rw [if_pos hstop] at hx
      simp at hx
    · rw [if_neg hstop] at hx
      rcases hrec : (processRows params rest (applyCounter t (processStep params db row).counter)
          (processStep params db row).db).1 with _ | ⟨y, ys⟩
      · rw [hrec] at hx
        simp at hx
      · rw [hrec] at hx
        rw [show ((processStep params db row).outcome :: y :: ys).dropLast
            = (processStep params db row).outcome :: (y :: ys).dropLast from rfl] at hx
        rcases List.mem_cons.mp hx with hxo | hxtail
        · subst hxo
          intro herr
          have := processStep_stop_of_error params db row herr
          rw [hcoe] at this
          exact hstop (by rw [this]; rfl)
        · have := ih (applyCounter t (processStep params db row).counter)
            (processStep params db row).db x
          rw [hrec] at this
          exact this hxtail

theorem processRows_db_dry (params : BulkImportRequest) (hdry : params.dry_run = true)
    (rows : List ParsedRow) :
    ∀ (t : RunTotals) (db : Store), (processRows params rows t db).2.2 = db := by
  induction rows with
  | nil =>
    intro t db
    rfl
  | cons row rest ih =>
    intro t db
    rw [processRows_cons]
    by_cases hstop : (processStep params db row).stop = true
    · rw [if_pos hstop]
      exact processStep_db_dry params db row hdry
    · rw [if_neg hstop]
      show (processRows params rest (applyCounter t (processStep params db row).counter)
        (processStep params db row).db).2.2 = db
      rw [ih (applyCounter t (processStep params db row).counter) (processStep params db row).db]
      exact processStep_db_dry params db row hdry

theorem parseRowsAux_take (maxRows : Nat) (raws : List RawCSVRow) :
    ∀ (n c : Nat),
      (parseRowsAux maxRows raws n c).1 = (parseRowsNoLimit raws n).take (maxRows - c) := by
  induction raws with
  | nil =>
    intro n c
    simp [parseRowsAux, parseRowsNoLimit]
  | cons raw rest ih =>
    intro n c
    by_cases hcap : maxRows ≤ c
    · rw [parseRowsAux, if_pos hcap]
      have hz : maxRows - c = 0 := Nat.sub_eq_zero_of_le hcap
      simp [hz]
    · rw [parseRowsAux, if_neg hcap]
      by_cases hblank : (cleanRow raw).isEmpty = true
      · rw [if_pos hblank]
        rw [parseRowsNoLimit, if_pos hblank]
        exact ih n.succ c
      · rw [if_neg hblank]
        rw [parseRowsNoLimit, if_neg hblank]
        have hsucc : maxRows - c = (maxRows - (c + 1)) + 1 := by omega
        rw [hsucc, List.take_succ_cons]
        simp [ih n.succ (c + 1)]

theorem parseRowsNoLimit_length (raws : List RawCSVRow) :
    ∀ n : Nat, (parseRowsNoLimit raws n).length = countNonblank raws := by
  induction raws with
  | nil =>
    intro n
    simp [parseRowsNoLimit, countNonblank]
  | cons raw rest ih =>
    intro n
    by_cases hblank : (cleanRow raw).isEmpty = true
    · rw [parseRowsNoLimit, if_pos hblank]
      simp [countNonblank, List.countP_cons, hblank] at ih ⊢
      exact ih n.succ
    · rw [parseRowsNoLimit, if_neg hblank]
      simp only [countNonblank, List.countP_cons] at ih ⊢
      simp only [Bool.not_eq_true] at hblank
      simp [hblank, ih n.succ]

theorem parseRowsAux_length_le (maxRows : Nat) (raws : List RawCSVRow) (n c : Nat) :
    (parseRowsAux maxRows raws n c).1.length ≤ maxRows - c := by
  rw [parseRowsAux_take]
  simp [List.length_take]

theorem parseRowsAux_truncation (maxRows : Nat) (raws : List RawCSVRow) :
    ∀ (n c : Nat), c ≤ maxRows → maxRows < c + countNonblank raws →
      (parseRowsAux maxRows raws n c).2 = [maxUsersMsg maxRows] := by
  induction raws with
  | nil =>
    intro n c hc hcount
    simp [countNonblank] at hcount
    omega
  | cons raw rest ih =>
    intro n c hc hcount
    by_cases hcap : maxRows ≤ c
    · rw [parseRowsAux, if_pos hcap]
    · rw [parseRowsAux, if_neg hcap]
      by_cases hblank : (cleanRow raw).isEmpty = true
      · rw [if_pos hblank]
        refine ih n.succ c hc ?_
        simp [countNonblank, List.countP_cons, hblank] at hcount ⊢
        omega
      · rw [if_neg hblank]
        show (parseRowsAux maxRows rest (n + 1) (c + 1)).2 = [maxUsersMsg maxRows]
        refine ih n.succ (c + 1) (by omega) ?_
        simp only [countNonblank, List.countP_cons] at hcount ⊢
        simp only [Bool.not_eq_true] at hblank
        simp [hblank] at hcount ⊢
        omega

theorem parseRowsNoLimit_sorted (raws : List RawCSVRow) :
    ∀ n : Nat,
      ((parseRowsNoLimit raws n).map ParsedRow.rowNumber).Pairwise (· < ·) ∧
      ∀ x ∈ (parseRowsNoLimit raws n).map ParsedRow.rowNumber, n ≤ x := by
  induction raws with
  | nil =>
    intro n
    simp [parseRowsNoLimit]
  | cons raw rest ih =>
    intro n
    by_cases hblank : (cleanRow raw).isEmpty = true
    · rw [parseRowsNoLimit, if_pos hblank]
      obtain ⟨hp, hb⟩ := ih n.succ
      exact ⟨hp, fun x hx => Nat.le_of_succ_le (hb x hx)⟩
    · rw [parseRowsNoLimit, if_neg hblank]
      obtain ⟨hp, hb⟩ := ih n.succ
      refine ⟨?_, ?_⟩
      · simp only [List.map_cons]
        exact List.Pairwise.cons (fun x hx => Nat.lt_of_succ_le (hb x hx)) hp
      · intro x hx
        simp only [List.map_cons, List.mem_cons] at hx
        rcases hx with hx | hx
        · omega
        · exact Nat.le_of_succ_le (hb x hx)

theorem parse_csv_content_sorted (file : UploadFile) :
    (((parse_csv_content file).1).map ParsedRow.rowNumber).Pairwise (· < ·) := by
  unfold parse_csv_content
  dsimp only
  split
  · simp
  · split
    · simp
    · have hp := (parseRowsNoLimit_sorted file.dataRows 2).1
      have htake := parseRowsAux_take MAX_USERS_PER_IMPORT file.dataRows 2 0
      split <;>
        (simp only [htake, Nat.sub_zero, ← List.map_take]
         exact hp.sublist ((List.take_sublist _ _).map ParsedRow.rowNumber))

theorem process_bulk_import_normal (file : UploadFile) (db : Store) (params : BulkImportRequest)
    (hfile : (validate_csv_file file).1 = true)
    (hrows : (parse_csv_content file).2 = [] ∨ (parse_csv_content file).1 ≠ []) :
    process_bulk_import file db params =
      ({ status :=
            if (processRows params (parse_csv_content file).1 initTotals db).2.1.failed_count == 0
                && (parse_csv_content file).2.length == 0 then BulkImportStatus.success
            else if (processRows params (parse_csv_content file).1 initTotals db).2.1.successful_count > 0 then
              BulkImportStatus.partialSuccess
            else BulkImportStatus.failed,
          total_rows := (parse_csv_content file).1.length,
          successful_imports := (processRows params (parse_csv_content file).1 initTotals db).2.1.successful_count,
          failed_imports := (processRows params (parse_csv_content file).1 initTotals db).2.1.failed_count,
          skipped_imports := (processRows params (parse_csv_content file).1 initTotals db).2.1.skipped_count,
          results := (processRows params (parse_csv_content file).1 initTotals db).1,
          errors := none,
          csv_validation_errors :=
            if (parse_csv_content file).2.isEmpty then none else some (parse_csv_content file).2 },
        (processRows params (parse_csv_content file).1 initTotals db).2.2) := by
  have h1 : ¬ ((!(validate_csv_file file).1) = true) := by
    rw [hfile]
    simp
  have h2 : ¬ ((!(parse_csv_content file).2.isEmpty && (parse_csv_content file).1.isEmpty) = true) := by
    intro hc
    simp only [Bool.and_eq_true, List.isEmpty_eq_true, Bool.not_eq_true] at hc
    rcases hrows with h | h
    · rw [h] at hc
      simp at hc
    · exact h hc.2
  unfold process_bulk_import
  dsimp only
  rw [if_neg h1, if_neg h2]

/-- Header row common to the concrete scenarios. -/
def req4 : List String := ["userName", "firstName", "surName", "email"]

/-- A fully valid data row. -/
def rowJdoe : RawCSVRow :=
  [("userName", "jdoe"), ("firstName", "John"), ("surName", "Doe"), ("email", "john@x.com")]

/-- A fully valid data row whose userName is already stored. -/
def rowAsmith : RawCSVRow :=
  [("userName", "asmith"), ("firstName", "Alice"), ("surName", "Smith"), ("email", "alice@x.com")]

/-- A row with an empty email cell: the cell is dropped while cleaning, so
row validation fails with a missing required field. -/
def rowNoEmail : RawCSVRow :=
  [("userName", "bbad"), ("firstName", "Bob"), ("surName", "Bad"), ("email", "")]

/-- A duplicate userName combined with an empty email cell. -/
def rowAsmithNoEmail : RawCSVRow :=
  [("userName", "asmith"), ("firstName", "Alice"), ("surName", "Smith"), ("email", "")]

/-- Two-row file: a fresh valid user followed by a stored duplicate. -/
def fileDup : UploadFile :=
  { filename := "users.csv", size := some 100, fieldnames := req4, dataRows := [rowJdoe, rowAsmith] }

/-- Two-row file whose first row fails validation. -/
def fileHalt : UploadFile :=
  { filename := "users.csv", size := none, fieldnames := req4, dataRows := [rowNoEmail, rowJdoe] }

/-- One-row file: a stored duplicate that also fails validation. -/
def fileDupInvalid : UploadFile :=
  { filename := "users.csv", size := none, fieldnames := req4, dataRows := [rowAsmithNoEmail] }

/-- One-row file: a fully valid stored duplicate. -/
def fileAsmith : UploadFile :=
  { filename := "users.csv", size := none, fieldnames := req4, dataRows := [rowAsmith] }

/-- A store already holding userName asmith in the target realm. -/
def storeAsmith : Store := { existing := ["asmith"], failing := [], created := [] }

/-- An empty store. -/
def storeEmpty : Store := { existing := [], failing := [], created := [] }

/-- Dry run, skipping duplicates, continuing on error. -/
def paramsDrySkip : BulkImportRequest :=
  { dry_run := true, skip_duplicates := true, continue_on_error := true }

/-- Dry run, no duplicate skipping, aborting on the first error. -/
def paramsHalt : BulkImportRequest :=
  { dry_run := true, skip_duplicates := false, continue_on_error := false }

/-- Real run, skipping duplicates, continuing on error. -/
def paramsWetSkip : BulkImportRequest :=
  { dry_run := false, skip_duplicates := true, continue_on_error := true }

/-- The validated record produced from rowAsmith. -/
def uAsmith : CSVUserRow :=
  { userName := "asmith", firstName := "Alice", surName := "Smith",
    displayName := some "Alice Smith", email := "alice@x.com",
    secondaryEmail := none, externalId := none, active := true }

/-- The validated record produced from rowJdoe. -/
def uJdoe : CSVUserRow :=
  { userName := "jdoe", firstName := "John", surName := "Doe",
    displayName := some "John Doe", email := "john@x.com",
    secondaryEmail := none, externalId := none, active := true }

/-- The parsed row obtained from rowAsmith (source row number 2). -/
def parsedAsmith : ParsedRow := ⟨2, cleanRow rowAsmith⟩

/-- The parsed row obtained from rowJdoe (source row number 2). -/
def parsedJdoe : ParsedRow := ⟨2, cleanRow rowJdoe⟩

/-- The aggregate-status rule exactly as claim C1 states it. -/
abbrev statusRuleClaimed (r : BulkImportResponse) : Prop :=
  (r.status = BulkImportStatus.success ↔
    (r.successful_imports = r.total_rows ∧ r.errors = none ∧ r.csv_validation_errors = none)) ∧
  (r.status = BulkImportStatus.failed ↔ r.successful_imports = 0)

/-- The aggregate-status rule the code implements. -/
abbrev statusRuleAmended (r : BulkImportResponse) : Prop :=
  (r.status = BulkImportStatus.success ↔
    (r.failed_imports = 0 ∧ r.csv_validation_errors = none)) ∧
  (r.status = BulkImportStatus.partialSuccess ↔
    (¬(r.failed_imports = 0 ∧ r.csv_validation_errors = none) ∧
      0 < r.successful_imports)) ∧
  (r.status = BulkImportStatus.failed ↔
    (¬(r.failed_imports = 0 ∧ r.csv_validation_errors = none) ∧
      r.successful_imports = 0))

/-- C1 counterexample: a two-row import whose first row succeeds and whose
second row is skipped as a duplicate (skipDuplicates = true) gets aggregate
status success, although successCount (1) differs from totalRows (2); the
claimed iff for success is therefore false on this run. -/
theorem C1_counterexample :
    ¬ statusRuleClaimed (process_bulk_import fileDup storeAsmith paramsDrySkip).1 := by
  decide

/-- C1 (corrected): the aggregate status of a completed import is success
iff failedCount is zero and there are no file or structural errors; it is
partial_success iff that condition fails and successCount is positive; it
is failed iff that condition fails and successCount is zero. Skipped rows
do not count against success. -/
theorem C1_status (file : UploadFile) (db : Store) (params : BulkImportRequest)
    (hfile : (validate_csv_file file).1 = true)
    (hrows : (parse_csv_content file).2 = [] ∨ (parse_csv_content file).1 ≠ []) :
    statusRuleAmended (process_bulk_import file db params).1 := by
  rw [process_bulk_import_normal file db params hfile hrows]
  by_cases hF : (processRows params (parse_csv_content file).1 initTotals db).2.1.failed_count = 0 <;>
    by_cases hE : (parse_csv_content file).2 = [] <;>
      by_cases hS : 0 < (processRows params (parse_csv_content file).1 initTotals db).2.1.successful_count <;>
        simp [statusRuleAmended, hF, hE, hS] <;>
        omega

/-- C1 witness: the hypotheses of C1_status hold for the concrete two-row
dry run and the amended status rule holds for its report. -/
theorem C1_status_witness :
    (validate_csv_file fileDup).1 = true ∧
    ((parse_csv_content fileDup).2 = [] ∨ (parse_csv_content fileDup).1 ≠ []) ∧
    statusRuleAmended (process_bulk_import fileDup storeAsmith paramsDrySkip).1 :=
  ⟨by decide, Or.inl (by decide),
    C1_status fileDup storeAsmith paramsDrySkip (by decide) (Or.inl (by decide))⟩

/-- C2 counterexample: with continueOnError = false and the first of two
parsed rows failing, the loop stops after one visited row, yet the report
says totalRows = 2 while only 1 outcome exists, so totalRows differs from
the number of visited rows. -/
theorem C2_counterexample :
    (process_bulk_import fileHalt storeEmpty paramsHalt).1.total_rows = 2 ∧
    (process_bulk_import fileHalt storeEmpty paramsHalt).1.results.length = 1 ∧
    (process_bulk_import fileHalt storeEmpty paramsHalt).1.total_rows ≠
      (process_bulk_import fileHalt storeEmpty paramsHalt).1.results.length := by
  refine ⟨by decide, by decide, by decide⟩

/-- C2 (corrected): totalRows always equals the number of parsed rows
(len(rows)), not the number of rows visited before an early stop; on a
halted import the outcome list is shorter than totalRows. -/
theorem C2_total_rows (file : UploadFile) (db : Store) (params : BulkImportRequest)
    (hfile : (validate_csv_file file).1 = true)
    (hrows : (parse_csv_content file).2 = [] ∨ (parse_csv_content file).1 ≠ []) :
    (process_bulk_import file db params).1.total_rows = (parse_csv_content file).1.length := by
  rw [process_bulk_import_normal file db params hfile hrows]

/-- C2 witness: the halted two-row import still reports totalRows equal to
the number of parsed rows. -/
theorem C2_total_rows_witness :
    (validate_csv_file fileHalt).1 = true ∧
    ((parse_csv_content fileHalt).2 = [] ∨ (parse_csv_content fileHalt).1 ≠ []) ∧
    (process_bulk_import fileHalt storeEmpty paramsHalt).1.total_rows
      = (parse_csv_content fileHalt).1.length :=
  ⟨by decide, Or.inl (by decide),
    C2_total_rows fileHalt storeEmpty paramsHalt (by decide) (Or.inl (by decide))⟩

/-- C3 counterexample: the halted two-row import parses rows numbered 2 and
3 but emits an outcome only for row 2; the parsed row 3 has no outcome, so
the outcome sequence is not total over parsed rows. -/
theorem C3_counterexample :
    (parse_csv_content fileHalt).1.map ParsedRow.rowNumber = [2, 3] ∧
    (process_bulk_import fileHalt storeEmpty paramsHalt).1.results.map BulkUserResult.row_number
      = [2] ∧
    ¬ (3 ∈ (process_bulk_import fileHalt storeEmpty paramsHalt).1.results.map
        BulkUserResult.row_number) := by
  refine ⟨by decide, by decide, by decide⟩

/-- C3 (corrected): outcomes are ordered by source row number and
correspond, in order, to a prefix of the parsed rows — every visited row
yields exactly one outcome, and with continueOnError = true every parsed
row yields exactly one outcome; but rows left unprocessed by an early stop
yield no outcome at all. -/
theorem C3_ordered_outcomes (file : UploadFile) (db : Store) (params : BulkImportRequest)
    (hfile : (validate_csv_file file).1 = true)
    (hrows : (parse_csv_content file).2 = [] ∨ (parse_csv_content file).1 ≠ []) :
    (∃ k, (process_bulk_import file db params).1.results.map BulkUserResult.row_number
        = (((parse_csv_content file).1).map ParsedRow.rowNumber).take k) ∧
    (((parse_csv_content file).1).map ParsedRow.rowNumber).Pairwise (· < ·) ∧
    (params.continue_on_error = true →
      (process_bulk_import file db params).1.results.length = (parse_csv_content file).1.length) := by
  rw [process_bulk_import_normal file db params hfile hrows]
  refine ⟨?_, parse_csv_content_sorted file, ?_⟩
  · exact processRows_map_row_number params (parse_csv_content file).1 initTotals db
  · intro hcoe
    exact processRows_length_total params hcoe (parse_csv_content file).1 initTotals db

/-- C3 witness: on the two-row dry run with continueOnError = true the
outcome row numbers are a prefix of (here all of) the parsed row numbers. -/
theorem C3_ordered_outcomes_witness :
    (validate_csv_file fileDup).1 = true ∧
    ((parse_csv_content fileDup).2 = [] ∨ (parse_csv_content fileDup).1 ≠ []) ∧
    ((∃ k, (process_bulk_import fileDup storeAsmith paramsDrySkip).1.results.map
          BulkUserResult.row_number
        = (((parse_csv_content fileDup).1).map ParsedRow.rowNumber).take k) ∧
      (((parse_csv_content fileDup).1).map ParsedRow.rowNumber).Pairwise (· < ·) ∧
      (paramsDrySkip.continue_on_error = true →
        (process_bulk_import fileDup storeAsmith paramsDrySkip).1.results.length
          = (parse_csv_content fileDup).1.length)) :=
  ⟨by decide, Or.inl (by decide),
    C3_ordered_outcomes fileDup storeAsmith paramsDrySkip (by decide) (Or.inl (by decide))⟩

/-- C4 (confirmed): with continueOnError = false, an error outcome can only
be the last outcome of the report — once a row fails (validation or store
creation), no outcome of any status is emitted for any later row. -/
theorem C4_no_outcome_after_error (file : UploadFile) (db : Store) (params : BulkImportRequest)
    (hcoe : params.continue_on_error = false) :
    ∀ x ∈ (process_bulk_import file db params).1.results.dropLast, x.status ≠ "error" := by
  unfold process_bulk_import
  dsimp only
  split
  · intro x hx
    simp [failedResponse] at hx
  · split
    · intro x hx
      simp [failedResponse] at hx
    · exact processRows_error_last params hcoe (parse_csv_content file).1 initTotals db

/-- C4 witness: the halted import has exactly one outcome, so its dropLast
is empty and the property holds concretely. -/
theorem C4_no_outcome_after_error_witness :
    paramsHalt.continue_on_error = false ∧
    ∀ x ∈ (process_bulk_import fileHalt storeEmpty paramsHalt).1.results.dropLast,
      x.status ≠ "error" :=
  ⟨by decide, C4_no_outcome_after_error fileHalt storeEmpty paramsHalt (by decide)⟩

/-- C5 counterexample: a row whose userName (asmith) is already stored in
the realm, under skipDuplicates = true, yields an error outcome (its email
cell is empty, so row validation fails before the duplicate check runs),
never reaching the skipped classification. -/
theorem C5_counterexample :
    get_scim_user_by_username storeAsmith "asmith" = true ∧
    paramsWetSkip.skip_duplicates = true ∧
    (process_bulk_import fileDupInvalid storeAsmith paramsWetSkip).1.results.map
        (fun x => x.status) = ["error"] ∧
    (process_bulk_import fileDupInvalid storeAsmith paramsWetSkip).1.skipped_imports = 0 := by
  refine ⟨by decide, by decide, by decide, by decide⟩

/-- C5 (corrected): a visited row that passes row validation and whose
userName matches a stored record, under skipDuplicates = true, yields
exactly one skipped outcome, increments the skipped counter, and the loop
proceeds to the next row regardless of continueOnError. Rows that fail
validation take the error path even when their userName is a duplicate. -/
theorem C5_duplicate_skipped (params : BulkImportRequest) (row : ParsedRow)
    (rest : List ParsedRow) (t : RunTotals) (db : Store) (u : CSVUserRow)
    (hskip : params.skip_duplicates = true)
    (hval : validate_user_row row.fields row.rowNumber = (some u, []))
    (hdup : get_scim_user_by_username db u.userName = true) :
    processRows params (row :: rest) t db =
      (skippedResult row u ::
          (processRows params rest (applyCounter t CounterKind.skip) db).1,
        (processRows params rest (applyCounter t CounterKind.skip) db).2) ∧
    (skippedResult row u).status = "skipped" := by
  have hstep : processStep params db row =
      { outcome := skippedResult row u, counter := CounterKind.skip, db := db, stop := false } := by
    unfold processStep
    rw [hval]
    simp [hskip, hdup]
  refine ⟨?_, rfl⟩
  rw [processRows_cons, hstep]
  simp

/-- C5 witness: the concrete valid duplicate row is skipped and processing
continues. -/
theorem C5_duplicate_skipped_witness :
    paramsWetSkip.skip_duplicates = true ∧
    validate_user_row parsedAsmith.fields parsedAsmith.rowNumber = (some uAsmith, []) ∧
    get_scim_user_by_username storeAsmith uAsmith.userName = true ∧
    (processRows paramsWetSkip [parsedAsmith] initTotals storeAsmith =
      (skippedResult parsedAsmith uAsmith ::
          (processRows paramsWetSkip [] (applyCounter initTotals CounterKind.skip) storeAsmith).1,
        (processRows paramsWetSkip [] (applyCounter initTotals CounterKind.skip) storeAsmith).2) ∧
      (skippedResult parsedAsmith uAsmith).status = "skipped") :=
  ⟨by decide, by decide, by decide,
    C5_duplicate_skipped paramsWetSkip parsedAsmith [] initTotals storeAsmith uAsmith
      (by decide) (by decide) (by decide)⟩

/-- C6 counterexample: a row whose required fields are all present and
valid, imported with dryRun = true and skipDuplicates = true against a
store already holding its userName, yields a skipped outcome, not the
success outcome the claim promises for every valid row. -/
theorem C6_counterexample :
    paramsDrySkip.dry_run = true ∧
    validate_user_row (cleanRow rowAsmith) 2 = (some uAsmith, []) ∧
    (process_bulk_import fileAsmith storeAsmith paramsDrySkip).1.results.map
        (fun x => x.status) = ["skipped"] := by
  refine ⟨by decide, by decide, by decide⟩

/-- C6 (corrected): with dryRun = true the store is never mutated — the
returned store is the input store, for every file — and every visited
valid row that is not skipped as a duplicate yields a success outcome. -/
theorem C6_dry_run_no_store_writes (params : BulkImportRequest) (hdry : params.dry_run = true) :
    (∀ (file : UploadFile) (db : Store), (process_bulk_import file db params).2 = db) ∧
    (∀ (row : ParsedRow) (rest : List ParsedRow) (t : RunTotals) (db : Store) (u : CSVUserRow),
      validate_user_row row.fields row.rowNumber = (some u, []) →
      (params.skip_duplicates && get_scim_user_by_username db u.userName) = false →
      processRows params (row :: rest) t db =
        (dryRunSuccessResult row u ::
            (processRows params rest (applyCounter t CounterKind.succ) db).1,
          (processRows params rest (applyCounter t CounterKind.succ) db).2) ∧
      (dryRunSuccessResult row u).status = "success") := by
  constructor
  · intro file db
    unfold process_bulk_import
    dsimp only
    split
    · rfl
    · split
      · rfl
      · exact processRows_db_dry params hdry (parse_csv_content file).1 initTotals db
  · intro row rest t db u hval hnodup
    have hstep : processStep params db row =
        { outcome := dryRunSuccessResult row u, counter := CounterKind.succ,
          db := db, stop := false } := by
      unfold processStep
      rw [hval]
      simp [hnodup, hdry]
    refine ⟨?_, rfl⟩
    rw [processRows_cons, hstep]
    simp

/-- C6 witness: the concrete dry run leaves the store untouched and the
fresh valid row jdoe yields a dry-run success outcome. -/
theorem C6_dry_run_no_store_writes_witness :
    paramsDrySkip.dry_run = true ∧
    (process_bulk_import fileDup storeAsmith paramsDrySkip).2 = storeAsmith ∧
    (processRows paramsDrySkip [parsedJdoe] initTotals storeAsmith =
      (dryRunSuccessResult parsedJdoe uJdoe ::
          (processRows paramsDrySkip [] (applyCounter initTotals CounterKind.succ) storeAsmith).1,
        (processRows paramsDrySkip [] (applyCounter initTotals CounterKind.succ) storeAsmith).2) ∧
      (dryRunSuccessResult parsedJdoe uJdoe).status = "success") :=
  ⟨by decide, (C6_dry_run_no_store_writes paramsDrySkip (by decide)).1 fileDup storeAsmith,
    (C6_dry_run_no_store_writes paramsDrySkip (by decide)).2 parsedJdoe [] initTotals storeAsmith
      uJdoe (by decide) (by decide)⟩

/-- A file whose data lines all clean to the same non-empty row. -/
def file1001 : UploadFile :=
  { filename := "users.csv", size := none, fieldnames := req4,
    dataRows := List.replicate 1001 rowJdoe }

theorem countNonblank_replicate (n : Nat) (r : RawCSVRow)
    (h : (!(cleanRow r).isEmpty) = true) :
    countNonblank (List.replicate n r) = n := by
  induction n with
  | zero => simp [countNonblank]
  | succ m ih =>
    rw [List.replicate_succ]
    simp only [countNonblank, List.countP_cons] at ih ⊢
    simp [h, ih]

/-- C7 (confirmed): the parser returns at most MAX_USERS_PER_IMPORT (1000)
rows for any file; when the non-blank data rows exceed the cap, exactly
the single truncation notice is reported, the returned rows are exactly
the first 1000 rows of the uncapped parse, and the import still processes
them (the report counts 1000 total rows). -/
theorem C7_row_cap (file : UploadFile) (db : Store) (params : BulkImportRequest)
    (hfield : file.fieldnames.isEmpty = false)
    (hreq : (REQUIRED_COLUMNS.filter (fun c => !(headersOf file).contains c)).isEmpty = true)
    (hcount : MAX_USERS_PER_IMPORT < countNonblank file.dataRows)
    (hfile : (validate_csv_file file).1 = true) :
    (∀ g : UploadFile, (parse_csv_content g).1.length ≤ MAX_USERS_PER_IMPORT) ∧
    (parse_csv_content file).2 = [maxUsersMsg MAX_USERS_PER_IMPORT] ∧
    (parse_csv_content file).1 = (parseRowsNoLimit file.dataRows 2).take MAX_USERS_PER_IMPORT ∧
    (process_bulk_import file db params).1.total_rows = MAX_USERS_PER_IMPORT := by
  have hcap : ∀ g : UploadFile, (parse_csv_content g).1.length ≤ MAX_USERS_PER_IMPORT := by
    intro g
    unfold parse_csv_content
    dsimp only
    split
    · simp
    · split
      · simp
      · have hle := parseRowsAux_length_le MAX_USERS_PER_IMPORT g.dataRows 2 0
        split <;> simpa using hle
  have hlen : (parseRowsAux MAX_USERS_PER_IMPORT file.dataRows 2 0).1.length
      = MAX_USERS_PER_IMPORT := by
    rw [parseRowsAux_take, List.length_take, parseRowsNoLimit_length]
    omega
  have hparse : parse_csv_content file =
      ((parseRowsNoLimit file.dataRows 2).take MAX_USERS_PER_IMPORT,
        [maxUsersMsg MAX_USERS_PER_IMPORT]) := by
    unfold parse_csv_content
    dsimp only
    rw [if_neg (by simp [hfield]),
      if_neg (by
        intro hc
        rw [hreq] at hc
        simp at hc),
      if_neg (by
        intro hc
        rw [List.isEmpty_eq_true] at hc
        rw [hc] at hlen
        simp [MAX_USERS_PER_IMPORT] at hlen)]
    rw [Prod.mk.injEq]
    refine ⟨?_, ?_⟩
    · rw [parseRowsAux_take, Nat.sub_zero]
    · exact parseRowsAux_truncation MAX_USERS_PER_IMPORT file.dataRows 2 0 (by omega) (by omega)
  have hlen2 : (parse_csv_content file).1.length = MAX_USERS_PER_IMPORT := by
    rw [hparse]
    dsimp only
    rw [List.length_take, parseRowsNoLimit_length]
    omega
  have hne : (parse_csv_content file).1 ≠ [] := by
    intro hc
    rw [hc] at hlen2
    simp [MAX_USERS_PER_IMPORT] at hlen2
  refine ⟨hcap, by rw [hparse], by rw [hparse], ?_⟩
  rw [process_bulk_import_normal file db params hfile (Or.inr hne)]
  exact hlen2

/-- C7 witness: a file of 1001 identical non-blank rows satisfies the
hypotheses, so its parse is truncated to 1000 rows with one notice. -/
theorem C7_row_cap_witness :
    file1001.fieldnames.isEmpty = false ∧
    (REQUIRED_COLUMNS.filter (fun c => !(headersOf file1001).contains c)).isEmpty = true ∧
    MAX_USERS_PER_IMPORT < countNonblank file1001.dataRows ∧
    (validate_csv_file file1001).1 = true ∧
    ((∀ g : UploadFile, (parse_csv_content g).1.length ≤ MAX_USERS_PER_IMPORT) ∧
      (parse_csv_content file1001).2 = [maxUsersMsg MAX_USERS_PER_IMPORT] ∧
      (parse_csv_content file1001).1
        = (parseRowsNoLimit file1001.dataRows 2).take MAX_USERS_PER_IMPORT ∧
      (process_bulk_import file1001 storeEmpty paramsDrySkip).1.total_rows
        = MAX_USERS_PER_IMPORT) := by
  have hcount : MAX_USERS_PER_IMPORT < countNonblank file1001.dataRows := by
    rw [show file1001.dataRows = List.replicate 1001 rowJdoe from rfl,
      countNonblank_replicate 1001 rowJdoe (by decide)]
    decide
  exact ⟨by decide, by decide, hcount, by decide,
    C7_row_cap file1001 storeEmpty paramsDrySkip (by decide) (by decide) hcount (by decide)⟩

/-- C8 (confirmed): a non-empty stripped cell in the active column is
normalized to a boolean exactly as claimed: a case-insensitive member of
the true-set maps to true, of the false-set to false, and any other
non-empty value to true. -/
theorem C8_active_normalization (value : String) (h : pyStrip value ≠ "") :
    cleanRow [("active", value)]
      = [("active", CellValue.bool (parseActiveValue (pyStrip value)))] ∧
    (["true", "1", "yes", "active"].contains (pyLower (pyStrip value)) = true →
      parseActiveValue (pyStrip value) = true) ∧
    (["false", "0", "no", "inactive"].contains (pyLower (pyStrip value)) = true →
      parseActiveValue (pyStrip value) = false) ∧
    (["true", "1", "yes", "active"].contains (pyLower (pyStrip value)) = false →
      ["false", "0", "no", "inactive"].contains (pyLower (pyStrip value)) = false →
      parseActiveValue (pyStrip value) = true) := by
  refine ⟨?_, ?_, ?_, ?_⟩
  · simp [cleanRow, ALL_COLUMNS, REQUIRED_COLUMNS, OPTIONAL_COLUMNS, List.lookup, h]
  · intro hmem
    unfold parseActiveValue
    rw [if_pos hmem]
  · intro hmem
    unfold parseActiveValue
    have hw : pyLower (pyStrip value) = "false" ∨ pyLower (pyStrip value) = "0"
        ∨ pyLower (pyStrip value) = "no" ∨ pyLower (pyStrip value) = "inactive" := by
      simpa using hmem
    rcases hw with h1 | h1 | h1 | h1 <;> rw [h1] <;> decide
  · intro h1 h2
    unfold parseActiveValue
    rw [if_neg (by rw [h1]; simp), if_neg (by rw [h2]; simp)]

/-- C8 witness: the value YES surrounded by blanks strips to a non-empty
cell and normalizes to true. -/
theorem C8_active_normalization_witness :
    pyStrip " YES " ≠ "" ∧
    (cleanRow [("active", " YES ")]
      = [("active", CellValue.bool (parseActiveValue (pyStrip " YES ")))] ∧
    (["true", "1", "yes", "active"].contains (pyLower (pyStrip " YES ")) = true →
      parseActiveValue (pyStrip " YES ") = true) ∧
    (["false", "0", "no", "inactive"].contains (pyLower (pyStrip " YES ")) = true →
      parseActiveValue (pyStrip " YES ") = false) ∧
    (["true", "1", "yes", "active"].contains (pyLower (pyStrip " YES ")) = false →
      ["false", "0", "no", "inactive"].contains (pyLower (pyStrip " YES ")) = false →
      parseActiveValue (pyStrip " YES ") = true)) :=
  ⟨by decide, C8_active_normalization " YES " (by decide)⟩

/-- C9 (confirmed): file validation passes iff the filename ends in .csv
case-insensitively and the declared size is not a truthy value above the
5 MiB limit; with an absent or zero declared size the size limit is not
enforced and only the extension matters. -/
theorem C9_file_validation (file : UploadFile) :
    ((validate_csv_file file).1 = true ↔
      (pyEndsWith (pyLower file.filename) ".csv" = true ∧
        declaredSizeExceeds file.size = false)) ∧
    ((file.size = none ∨ file.size = some 0) →
      ((validate_csv_file file).1 = true ↔ pyEndsWith (pyLower file.filename) ".csv" = true)) := by
  have hA : (validate_csv_file file).1 = true ↔
      (pyEndsWith (pyLower file.filename) ".csv" = true ∧
        declaredSizeExceeds file.size = false) := by
    unfold validate_csv_file
    dsimp only
    by_cases hext : pyEndsWith (pyLower file.filename) ".csv" = true <;>
      by_cases hsz : declaredSizeExceeds file.size = true <;>
        simp [hext, hsz]
  refine ⟨hA, ?_⟩
  intro hz0
  have hz : declaredSizeExceeds file.size = false := by
    rcases hz0 with h0 | h0 <;> rw [h0] <;> rfl
  rw [hA, hz]
  simp

/-- C9 witness: a .csv file with declared size none passes validation. -/
theorem C9_file_validation_witness :
    ((validate_csv_file fileAsmith).1 = true ↔
      (pyEndsWith (pyLower fileAsmith.filename) ".csv" = true ∧
        declaredSizeExceeds fileAsmith.size = false)) ∧
    ((fileAsmith.size = none ∨ fileAsmith.size = some 0) →
      ((validate_csv_file fileAsmith).1 = true ↔
        pyEndsWith (pyLower fileAsmith.filename) ".csv" = true)) :=
  C9_file_validation fileAsmith

/-- C10 (confirmed): in every report returned by the import operation, the
three counters sum to the number of results, and the number of results
with status success, error, and skipped equals the successful, failed, and
skipped counters respectively. -/
theorem C10_count_invariant (file : UploadFile) (db : Store) (params : BulkImportRequest) :
    (process_bulk_import file db params).1.successful_imports
        + (process_bulk_import file db params).1.failed_imports
        + (process_bulk_import file db params).1.skipped_imports
      = (process_bulk_import file db params).1.results.length ∧
    countStatus (process_bulk_import file db params).1.results "success"
      = (process_bulk_import file db params).1.successful_imports ∧
    countStatus (process_bulk_import file db params).1.results "error"
      = (process_bulk_import file db params).1.failed_imports ∧
    countStatus (process_bulk_import file db params).1.results "skipped"
      = (process_bulk_import file db params).1.skipped_imports := by
  obtain ⟨h1, h2, h3⟩ := processRows_counts params (parse_csv_content file).1 initTotals db
  have h4 := processRows_sum_length params (parse_csv_content file).1 initTotals db
  rw [show initTotals.successful_count = 0 from rfl] at h1 h4
  rw [show initTotals.failed_count = 0 from rfl] at h2 h4
  rw [show initTotals.skipped_count = 0 from rfl] at h3 h4
  unfold process_bulk_import
  dsimp only
  split
  · simp [failedResponse, countStatus]
  · split
    · simp [failedResponse, countStatus]
    · refine ⟨?_, ?_, ?_, ?_⟩ <;> dsimp only <;> omega

end BulkImport
